import Mathlib

/-!
Shallow embedding of the esp32_network_manager Ethernet manager
(src/unnamed/part_001 = current eth_manager.c, with src/unnamed/part_002 the
older revision of the same file) together with proofs about its behaviour.

Collaborator calls (NVS key/value store, esp_netif / esp_eth primitives,
FreeRTOS event group) are modelled by explicit state passing plus outcome
oracles: an `NvsStore` records which keys are present, fault structures say
which store primitives succeed, and a `NetifEnv` carries the result codes and
live values the network-interface primitives would return.  Machine integers
appearing here (IPv4 addresses, u32 flags) are modelled as `Nat`; no
arithmetic overflows in the modelled code.
-/

namespace EthMgr

/-- esp_err_t result codes used by the modelled code.  `errCode n` stands for
a distinct collaborator error code injected at fault site `n`. -/
inductive EspErr where
  | ok
  | errNoMem
  | errInvalidState
  | errInvalidVersion
  | errNotFound
  | errInvalidArg
  | dhcpAlreadyStarted
  | errCode (n : Nat)
  deriving DecidableEq, Repr

/-- esp_netif_ip_info_t: address, netmask, gateway (IPv4 words). -/
structure Ip4Info where
  ip : Nat
  netmask : Nat
  gw : Nat
  deriving DecidableEq, Repr

/-- The three DNS slots (ESP_NETIF_DNS_MAX = 3); each entry is the server
address word, with 0 standing for the lwIP "any" address. -/
structure DnsInfo where
  d0 : Nat
  d1 : Nat
  d2 : Nat
  deriving DecidableEq, Repr

/-- struct eth_cfg from include/eth_manager.h. -/
structure EthCfg where
  is_default : Bool
  is_valid : Bool
  is_connected : Bool
  is_disabled : Bool
  is_static : Bool
  ip_info : Ip4Info
  dns_info : DnsInfo
  deriving DecidableEq, Repr

/-- eth_cfg_init: memset the struct to zero. -/
def eth_cfg_init : EthCfg :=
  { is_default := false, is_valid := false, is_connected := false
    is_disabled := false, is_static := false
    ip_info := ⟨0, 0, 0⟩, dns_info := ⟨0, 0, 0⟩ }

/-- set_defaults: compiled-in default configuration (part_001 lines 68-75). -/
def set_defaults : EthCfg :=
  { eth_cfg_init with
    is_default := true, is_valid := true, is_static := false, is_disabled := false }

/-- Contents of the NVS namespace used by the manager: one `Option` per key
written by save_config (`none` = key absent). -/
structure NvsStore where
  version : Option Nat
  eth_static : Option Nat
  eth_disable : Option Nat
  eth_ip : Option Ip4Info
  eth_dns : Option DnsInfo
  deriving DecidableEq, Repr

/-- The fully erased namespace. -/
def emptyStore : NvsStore := ⟨none, none, none, none, none⟩

/-- C bool converted to a u32 value, as in nvs_set_u32(handle, key, flag). -/
def b2n (b : Bool) : Nat := if b then 1 else 0

/-- The store contents after a fully successful non-default save of `cfg`
(NVS_CFG_VER = 1). -/
def fullStoreOf (cfg : EthCfg) : NvsStore :=
  ⟨some 1, some (b2n cfg.is_static), some (b2n cfg.is_disabled),
   some cfg.ip_info, some cfg.dns_info⟩

/-- Fault oracle for the NVS primitives called during save_config /
clear_config; `true` means the primitive succeeds.  A failing primitive
leaves the store contents unchanged; a successful erase empties them. -/
structure NvsFaults where
  openRW : Bool
  openClear : Bool
  eraseClear : Bool
  commitClear : Bool
  setVersion : Bool
  setStatic : Bool
  setDisable : Bool
  setIp : Bool
  setDns : Bool
  eraseRecover : Bool
  deriving DecidableEq, Repr

/-- clear_config (part_001 lines 146-171): open read-write, erase all, commit. -/
def clear_config (f : NvsFaults) (s : NvsStore) : EspErr × NvsStore :=
  if ¬ f.openClear then (.errCode 1, s)
  else if ¬ f.eraseClear then (.errCode 2, s)
  else if ¬ f.commitClear then (.errCode 3, emptyStore)
  else (.ok, emptyStore)

/-- The sequence of nvs_set writes inside save_config (part_001 lines 219-246),
starting from the freshly erased store; stops at the first failing write. -/
def saveWrites (f : NvsFaults) (cfg : EthCfg) : EspErr × NvsStore :=
  if ¬ f.setVersion then (.errCode 4, emptyStore)
  else
  let s1 : NvsStore := { emptyStore with version := some 1 }
  if ¬ f.setStatic then (.errCode 5, s1)
  else
  let s2 := { s1 with eth_static := some (b2n cfg.is_static) }
  if ¬ f.setDisable then (.errCode 6, s2)
  else
  let s3 := { s2 with eth_disable := some (b2n cfg.is_disabled) }
  if ¬ f.setIp then (.errCode 7, s3)
  else
  let s4 := { s3 with eth_ip := some cfg.ip_info }
  if ¬ f.setDns then (.errCode 8, s4)
  else (.ok, { s4 with eth_dns := some cfg.dns_info })

/-- save_config (part_001 lines 184-259; the part_002 revision lines 143-218 is
the same function up to key naming): open, erase the old record via
clear_config, return early-with-empty-store when the configuration is the
factory default, otherwise write every field; on any failure the on_exit
path runs a best-effort recovery erase (its own result discarded), commits
and returns the first error. -/
def save_config (f : NvsFaults) (cfg : EthCfg) (s : NvsStore) : EspErr × NvsStore :=
  if ¬ f.openRW then (.errCode 0, s)
  else
    let rs := clear_config f s
    let rs2 :=
      if rs.1 ≠ .ok then rs
      else if cfg.is_default then (EspErr.ok, rs.2)
      else saveWrites f cfg
    if rs2.1 ≠ .ok then
      (rs2.1, if f.eraseRecover then emptyStore else rs2.2)
    else rs2

/-- Fault oracle for the read path (get_saved_config): whether
nvs_open(NVS_READONLY) succeeds.  The individual nvs_get calls fail exactly
when the key is absent from the store. -/
structure ReadFaults where
  openRO : Bool
  deriving DecidableEq, Repr

/-- get_saved_config (part_001 lines 83-144): open read-only, read version
(reject versions above NVS_CFG_VER = 1), then the static flag, the disabled
flag, the ip blob and the dns blob, failing fast at the first absent key and
leaving the fields read so far in the output struct. -/
def get_saved_config (rf : ReadFaults) (s : NvsStore) : EspErr × EthCfg :=
  let cfg := eth_cfg_init
  if ¬ rf.openRO then (.errCode 10, cfg)
  else match s.version with
  | none => (.errNotFound, cfg)
  | some v =>
    if v > 1 then (.errInvalidVersion, cfg)
    else match s.eth_static with
    | none => (.errNotFound, cfg)
    | some st =>
      let cfg := { cfg with is_static := st ≠ 0 }
      match s.eth_disable with
      | none => (.errNotFound, cfg)
      | some di =>
        let cfg := { cfg with is_disabled := di ≠ 0 }
        match s.eth_ip with
        | none => (.errNotFound, cfg)
        | some ip =>
          let cfg := { cfg with ip_info := ip }
          match s.eth_dns with
          | none => (.errNotFound, cfg)
          | some dns => (.ok, { cfg with dns_info := dns })

/-- get_saved_or_default_config (part_001 lines 425-443): load from NVS, on
any failure substitute set_defaults and clear the error; force is_valid. -/
def get_saved_or_default_config (rf : ReadFaults) (s : NvsStore) : EspErr × EthCfg :=
  let rc := get_saved_config rf s
  let rc2 := if rc.1 ≠ .ok then (EspErr.ok, set_defaults) else rc
  (rc2.1, { rc2.2 with is_valid := true })

/-- get_effective_config of the older revision (part_002 lines 327-346): it
loads into a local `cfg_state` (substituting defaults there on failure) but
never writes the caller's output buffer `out0` and returns the result of
get_saved_config unchanged, so a load error is surfaced and the output stays
whatever it was. -/
def get_effective_config (rf : ReadFaults) (s : NvsStore) (out0 : EthCfg) :
    EspErr × EthCfg :=
  let rc := get_saved_config rf s
  (rc.1, out0)

/-- The two sticky event-group bits used by the manager:
BIT_ETH_START and BIT_ETH_CONNECTED. -/
structure Bits where
  started : Bool
  connected : Bool
  deriving DecidableEq, Repr

/-- struct eth_manager_handle_s: pointers modelled by presence flags
(`true` = non-NULL); the event group carries its bit state when present. -/
structure HandleS where
  eth_netif : Bool
  eth_handle : Bool
  eth_events : Option Bits
  deriving DecidableEq, Repr

/-- esp_netif_dhcp_status_t. -/
inductive DhcpStatus where
  | initial
  | started
  | stopped
  deriving DecidableEq, Repr

/-- Outcome oracle for the esp_netif / esp_eth primitives: result codes the
collaborators return, plus the live values the getters produce. -/
structure NetifEnv where
  dhcpcStopRes : EspErr
  setIpRes : EspErr
  setDnsRes0 : EspErr
  setDnsRes1 : EspErr
  setDnsRes2 : EspErr
  dhcpcStartRes : EspErr
  ethStartRes : EspErr
  ethStopRes : EspErr
  dhcpStatusRes : EspErr
  dhcpStatus : DhcpStatus
  getIpRes : EspErr
  liveIp : Ip4Info
  getDnsRes0 : EspErr
  getDnsRes1 : EspErr
  getDnsRes2 : EspErr
  liveDns : DnsInfo
  setHostnameRes : EspErr
  deriving DecidableEq, Repr

/-- Interface operations issued by the apply path, recorded as a trace. -/
inductive NetOp where
  | dhcpcStop
  | setIp
  | setDns (idx : Nat)
  | dhcpcStart
  | ethStart
  | ethStop
  deriving DecidableEq, Repr

/-- eth_connected (part_001 lines 262-272): a NULL handle or NULL event group
reads as not connected. -/
def eth_connected (h : Option HandleS) : Bool :=
  match h with
  | none => false
  | some h0 =>
    match h0.eth_events with
    | none => false
    | some b => b.connected

/-- start_eth (part_001 lines 274-294): reject an uninitialized manager; if
the Started bit is already set return ESP_OK without touching the driver;
otherwise call esp_eth_start. -/
def start_eth (ne : NetifEnv) (h : Option HandleS) : EspErr × List NetOp :=
  match h with
  | none => (.errInvalidState, [])
  | some h0 =>
    if ¬ h0.eth_handle then (.errInvalidState, [])
    else match h0.eth_events with
    | none => (.errInvalidState, [])
    | some b =>
      if b.started then (.ok, [])
      else (ne.ethStartRes, [.ethStart])

/-- stop_eth (part_001 lines 296-317): reject an uninitialized manager; if
the Started bit is clear return ESP_OK without touching the driver;
otherwise call esp_eth_stop. -/
def stop_eth (ne : NetifEnv) (h : Option HandleS) : EspErr × List NetOp :=
  match h with
  | none => (.errInvalidState, [])
  | some h0 =>
    if ¬ h0.eth_handle then (.errInvalidState, [])
    else match h0.eth_events with
    | none => (.errInvalidState, [])
    | some b =>
      if ¬ b.started then (.ok, [])
      else (ne.ethStopRes, [.ethStop])

/-- set_eth_cfg, the apply operation (part_001 lines 320-369).  Disabled:
stop the interface and return its result immediately.  Static: best-effort
DHCP-client stop, push ip_info (failure only logged), push each non-any DNS
slot (failures only logged), then start the interface.  Non-static: start the
DHCP client mapping "already started" to ESP_OK — note the source then
overwrites that result with start_eth's result in both branches.  The second
component is the trace of interface operations issued. -/
def set_eth_cfg (ne : NetifEnv) (h : Option HandleS) (cfg : EthCfg) :
    EspErr × List NetOp :=
  if cfg.is_disabled then
    stop_eth ne h
  else if cfg.is_static then
    let t : List NetOp :=
      [.dhcpcStop, .setIp]
        ++ (if cfg.dns_info.d0 = 0 then [] else [.setDns 0])
        ++ (if cfg.dns_info.d1 = 0 then [] else [.setDns 1])
        ++ (if cfg.dns_info.d2 = 0 then [] else [.setDns 2])
    let se := start_eth ne h
    (se.1, t ++ se.2)
  else
    let r0 := ne.dhcpcStartRes
    let _r1 := if r0 = .dhcpAlreadyStarted then EspErr.ok else r0
    let se := start_eth ne h
    (se.1, .dhcpcStart :: se.2)

/-- cfgs_are_equal (part_001 lines 371-417): disabled and static flags must
match; when the configurations are static the address, netmask, gateway and
every DNS slot must also match; otherwise no further field is compared. -/
def cfgs_are_equal (a b : EthCfg) : Bool :=
  if a.is_disabled ≠ b.is_disabled then false
  else if a.is_static ≠ b.is_static then false
  else if a.is_static then
    decide (a.ip_info.ip = b.ip_info.ip ∧ a.ip_info.netmask = b.ip_info.netmask
      ∧ a.ip_info.gw = b.ip_info.gw
      ∧ a.dns_info.d0 = b.dns_info.d0 ∧ a.dns_info.d1 = b.dns_info.d1
      ∧ a.dns_info.d2 = b.dns_info.d2)
  else true

/-- get_eth_state (part_001 lines 449-503): when not connected, return the
saved-or-default configuration with is_connected = false; when connected,
build a live snapshot: is_connected = true, query DHCP status (stopped infers
is_static), then the live ip_info and each DNS slot in order, failing fast;
is_valid is set on full success. -/
def get_eth_state (ne : NetifEnv) (rf : ReadFaults) (s : NvsStore)
    (h : Option HandleS) : EspErr × EthCfg :=
  let cfg := eth_cfg_init
  if ¬ eth_connected h then
    let rc := get_saved_or_default_config rf s
    (rc.1, { rc.2 with is_connected := false })
  else
    let cfg := { cfg with is_connected := true }
    if ne.dhcpStatusRes ≠ .ok then (ne.dhcpStatusRes, cfg)
    else
      let cfg := if ne.dhcpStatus = .stopped then { cfg with is_static := true } else cfg
      if ne.getIpRes ≠ .ok then (ne.getIpRes, cfg)
      else
        let cfg := { cfg with ip_info := ne.liveIp }
        if ne.getDnsRes0 ≠ .ok then (ne.getDnsRes0, cfg)
        else
          let cfg := { cfg with dns_info := { cfg.dns_info with d0 := ne.liveDns.d0 } }
          if ne.getDnsRes1 ≠ .ok then (ne.getDnsRes1, cfg)
          else
            let cfg := { cfg with dns_info := { cfg.dns_info with d1 := ne.liveDns.d1 } }
            if ne.getDnsRes2 ≠ .ok then (ne.getDnsRes2, cfg)
            else
              let cfg := { cfg with dns_info := { cfg.dns_info with d2 := ne.liveDns.d2 } }
              (.ok, { cfg with is_valid := true })

/-- Event bases dispatched to the handler; the manager only registers for
ETH_EVENT. -/
inductive EventBase where
  | ethEvent
  | otherBase
  deriving DecidableEq, Repr

/-- Ethernet event identifiers; `other id` stands for any identifier that is
none of the four named ones. -/
inductive EthEvent where
  | start
  | stop
  | connected
  | disconnected
  | other (id : Int)
  deriving DecidableEq, Repr

/-- eth_event_handler (part_001 lines 506-557) acting on the event-group
bits: Started set on START, cleared on STOP; Connected set on CONNECTED
(link up), cleared on DISCONNECTED (link down); everything else (and every
non-ETH_EVENT base) leaves the bits unchanged. -/
def eth_event_handler (base : EventBase) (ev : EthEvent) (b : Bits) : Bits :=
  match base with
  | .otherBase => b
  | .ethEvent =>
    match ev with
    | .connected => { b with connected := true }
    | .disconnected => { b with connected := false }
    | .start => { b with started := true }
    | .stop => { b with started := false }
    | .other _ => b

/-- Fault oracle for the allocation / wiring steps of eth_manager_init. -/
structure InitEnv where
  callocOk : Bool
  eventGroupOk : Bool
  netifNewOk : Bool
  attachRes : EspErr
  registerRes : EspErr
  deriving DecidableEq, Repr

/-- eth_manager_init (part_001 lines 573-653).  Already-initialized managers
are rejected.  Steps: calloc the handle (zeroed: netif NULL, events NULL),
store the driver handle, create the event group, create the netif, attach,
register the event handler, resolve the saved-or-default configuration and
apply it.  The on_exit path rolls back (delete event group, free handle,
handle = NULL) only when `result != ESP_OK`; the esp_netif_new failure
branch jumps to on_exit without setting `result`, so that branch returns
ESP_OK and keeps the half-built handle — modelled faithfully. -/
def eth_manager_init (env : InitEnv) (ne : NetifEnv) (rf : ReadFaults)
    (s : NvsStore) (ethHandleArg : Bool) (h : Option HandleS) :
    EspErr × Option HandleS :=
  match h with
  | some h0 => (.errInvalidState, some h0)
  | none =>
    if ¬ env.callocOk then (.errNoMem, none)
    else
      let h1 : HandleS :=
        { eth_netif := false, eth_handle := ethHandleArg, eth_events := none }
      if ¬ env.eventGroupOk then (.errNoMem, none)
      else
        let h2 := { h1 with eth_events := some ⟨false, false⟩ }
        if ¬ env.netifNewOk then
          (.ok, some h2)
        else
          let h3 := { h2 with eth_netif := true }
          if env.attachRes ≠ .ok then (env.attachRes, none)
          else if env.registerRes ≠ .ok then (env.registerRes, none)
          else
            let rc := get_saved_or_default_config rf s
            if rc.1 ≠ .ok then (rc.1, none)
            else
              let ar := set_eth_cfg ne (some h3) rc.2
              if ar.1 ≠ .ok then (ar.1, none)
              else (.ok, some h3)

/-- eth_manager_set_eth_cfg (part_001 lines 660-665): save_config's result is
discarded; the returned code is set_eth_cfg's.  Components: returned code,
resulting store, trace of interface operations issued. -/
def eth_manager_set_eth_cfg (nf : NvsFaults) (ne : NetifEnv)
    (h : Option HandleS) (cfg : EthCfg) (s : NvsStore) :
    EspErr × NvsStore × List NetOp :=
  let sr := save_config nf cfg s
  let ar := set_eth_cfg ne h cfg
  (ar.1, sr.2, ar.2)

/-- eth_manager_get_eth_cfg (part_001 lines 672-675): a direct call to
get_saved_or_default_config; the singleton handle is never consulted, which
is why this model takes no handle argument. -/
def eth_manager_get_eth_cfg (rf : ReadFaults) (s : NvsStore) : EspErr × EthCfg :=
  get_saved_or_default_config rf s

/-- eth_manager_get_eth_state (part_001 lines 680-683). -/
def eth_manager_get_eth_state (ne : NetifEnv) (rf : ReadFaults) (s : NvsStore)
    (h : Option HandleS) : EspErr × EthCfg :=
  get_eth_state ne rf s h

/-- eth_manager_set_hostname (part_001 lines 686-703): NULL handle or NULL
netif is rejected with ESP_ERR_INVALID_STATE; otherwise forward to
esp_netif_set_hostname. -/
def eth_manager_set_hostname (ne : NetifEnv) (h : Option HandleS) : EspErr :=
  match h with
  | none => .errInvalidState
  | some h0 =>
    if ¬ h0.eth_netif then .errInvalidState
    else if ne.setHostnameRes ≠ .ok then ne.setHostnameRes
    else .ok

/-- An optional field holds no value other than the target's value. -/
def fieldSub {α : Type} (a b : Option α) : Prop := a = none ∨ a = b

instance {α : Type} [DecidableEq α] (a b : Option α) : Decidable (fieldSub a b) := by
  unfold fieldSub
  infer_instance

/-- Every key present in `s` holds exactly the value the fully written store
`t` would hold: `s` contains no foreign (old) value. -/
def subStoreOf (s t : NvsStore) : Prop :=
  fieldSub s.version t.version ∧ fieldSub s.eth_static t.eth_static
    ∧ fieldSub s.eth_disable t.eth_disable ∧ fieldSub s.eth_ip t.eth_ip
    ∧ fieldSub s.eth_dns t.eth_dns

instance (s t : NvsStore) : Decidable (subStoreOf s t) := by
  unfold subStoreOf
  infer_instance

/-! Concrete fixtures used by counterexamples and witnesses. -/

/-- A benign interface environment: every primitive succeeds, DHCP reports
stopped, with arbitrary fixed live values. -/
def neOk : NetifEnv :=
  { dhcpcStopRes := .ok, setIpRes := .ok, setDnsRes0 := .ok, setDnsRes1 := .ok
    setDnsRes2 := .ok, dhcpcStartRes := .ok, ethStartRes := .ok, ethStopRes := .ok
    dhcpStatusRes := .ok, dhcpStatus := .stopped, getIpRes := .ok
    liveIp := ⟨167772165, 4294967040, 167772161⟩
    getDnsRes0 := .ok, getDnsRes1 := .ok, getDnsRes2 := .ok
    liveDns := ⟨167772161, 8, 0⟩, setHostnameRes := .ok }

/-- Read faults with a working nvs_open. -/
def rfOk : ReadFaults := ⟨true⟩

/-- A concrete saved static configuration. -/
def cfgOld : EthCfg :=
  { eth_cfg_init with is_static := true, ip_info := ⟨5, 6, 7⟩, dns_info := ⟨8, 9, 10⟩ }

/-- NVS faults where only the initial read-write open fails. -/
def fOpenFail : NvsFaults :=
  ⟨false, true, true, true, true, true, true, true, true, true⟩

/-- NVS faults with every primitive succeeding. -/
def fAllOk : NvsFaults :=
  ⟨true, true, true, true, true, true, true, true, true, true⟩

/-- A handle of a fully initialized manager whose driver is started but the
link is down. -/
def hStarted : HandleS := ⟨true, true, some ⟨true, false⟩⟩

/-- A handle of a fully initialized manager with link up. -/
def hConn : HandleS := ⟨true, true, some ⟨true, true⟩⟩

/-- A handle of a freshly initialized manager: driver not yet started. -/
def hFresh : HandleS := ⟨true, true, some ⟨false, false⟩⟩

/-! Helper lemmas shared by several claim proofs. -/

/-- Configuration resolution never returns an error code. -/
theorem gsodc_ok (rf : ReadFaults) (s : NvsStore) :
    (get_saved_or_default_config rf s).1 = .ok := by
  unfold get_saved_or_default_config
  by_cases h : (get_saved_config rf s).1 = .ok <;> simp [h]

/-- The fully erased store is a sub-store of any target. -/
theorem emptyStore_sub (t : NvsStore) : subStoreOf emptyStore t := by
  simp [subStoreOf, fieldSub, emptyStore]

/-- Every intermediate state of the write sequence holds only values of the
target configuration. -/
theorem saveWrites_sub (f : NvsFaults) (cfg : EthCfg) :
    subStoreOf (saveWrites f cfg).2 (fullStoreOf cfg) := by
  unfold saveWrites
  split_ifs <;> simp [subStoreOf, fieldSub, fullStoreOf, emptyStore]

/-- A successful write sequence produces exactly the full store. -/
theorem saveWrites_ok (f : NvsFaults) (cfg : EthCfg) :
    (saveWrites f cfg).1 = .ok → (saveWrites f cfg).2 = fullStoreOf cfg := by
  unfold saveWrites
  split_ifs <;> simp [fullStoreOf]

/-- Two non-static configurations differing only in ip_info / dns_info. -/
def nsCfgA : EthCfg := { eth_cfg_init with ip_info := ⟨1, 2, 3⟩, dns_info := ⟨4, 5, 6⟩ }

/-- Companion to `nsCfgA` with different IP and DNS fields. -/
def nsCfgB : EthCfg := { eth_cfg_init with ip_info := ⟨7, 8, 9⟩, dns_info := ⟨10, 11, 12⟩ }

/-- Two static configurations identical except in DNS slot 0. -/
def stCfgA : EthCfg :=
  { eth_cfg_init with is_static := true, ip_info := ⟨1, 2, 3⟩, dns_info := ⟨4, 5, 6⟩ }

/-- Companion to `stCfgA` differing only in DNS entry 0. -/
def stCfgB : EthCfg :=
  { eth_cfg_init with is_static := true, ip_info := ⟨1, 2, 3⟩, dns_info := ⟨40, 5, 6⟩ }

/-- Claim C6: cfgs_are_equal a b is true exactly when the disabled flags
match, the static flags match, and — when both configurations are static —
the address, netmask, gateway and every DNS slot match; when both are
non-static no further field is compared, so the two non-static
configurations nsCfgA/nsCfgB differing only in IP and DNS compare equal,
while the static pair stCfgA/stCfgB differing in DNS entry 0 compares
unequal. -/
theorem cfgs_are_equal_spec :
    (∀ a b : EthCfg, cfgs_are_equal a b = true ↔
      (a.is_disabled = b.is_disabled ∧ a.is_static = b.is_static ∧
        (a.is_static = true → b.is_static = true →
          a.ip_info.ip = b.ip_info.ip ∧ a.ip_info.netmask = b.ip_info.netmask ∧
          a.ip_info.gw = b.ip_info.gw ∧
          a.dns_info.d0 = b.dns_info.d0 ∧ a.dns_info.d1 = b.dns_info.d1 ∧
          a.dns_info.d2 = b.dns_info.d2)))
    ∧ cfgs_are_equal nsCfgA nsCfgB = true
    ∧ cfgs_are_equal stCfgA stCfgB = false := by
  refine ⟨?_, by decide, by decide⟩
  intro a b
  unfold cfgs_are_equal
  split_ifs with h1 h2 h3 <;> simp_all

/-- Claim C4: eth_manager_set_eth_cfg persists through save_config and then
applies through set_eth_cfg unconditionally; its return value and the
operations issued by the apply step are those of set_eth_cfg alone, and are
identical under any two persistence fault patterns and prior store contents,
while the store itself ends as save_config leaves it. -/
theorem set_cfg_applies_regardless_of_save :
    ∀ (nf nf2 : NvsFaults) (ne : NetifEnv) (h : Option HandleS) (cfg : EthCfg)
      (s s2 : NvsStore),
      (eth_manager_set_eth_cfg nf ne h cfg s).1 = (set_eth_cfg ne h cfg).1
      ∧ (eth_manager_set_eth_cfg nf ne h cfg s).2.2 = (set_eth_cfg ne h cfg).2
      ∧ (eth_manager_set_eth_cfg nf ne h cfg s).2.1 = (save_config nf cfg s).2
      ∧ (eth_manager_set_eth_cfg nf ne h cfg s).1 =
          (eth_manager_set_eth_cfg nf2 ne h cfg s2).1 := by
  intros
  exact ⟨rfl, rfl, rfl, rfl⟩

/-- Claim C10: with a NULL singleton handle, the connected query reads
not-connected, get_state succeeds returning the saved-or-default
configuration with is_connected = false, get_config is a direct call to the
resolver (its model takes no handle argument because the source never reads
the handle), and only set_hostname and the interface-touching start/stop
helpers reject the uninitialized state with ESP_ERR_INVALID_STATE. -/
theorem uninitialized_queries_succeed :
    ∀ (ne : NetifEnv) (rf : ReadFaults) (s : NvsStore),
      eth_connected none = false
      ∧ (eth_manager_get_eth_state ne rf s none).1 = .ok
      ∧ (eth_manager_get_eth_state ne rf s none).2 =
          { (get_saved_or_default_config rf s).2 with is_connected := false }
      ∧ eth_manager_get_eth_cfg rf s = get_saved_or_default_config rf s
      ∧ eth_manager_set_hostname ne none = .errInvalidState
      ∧ (start_eth ne none).1 = .errInvalidState
      ∧ (stop_eth ne none).1 = .errInvalidState := by
  intro ne rf s
  refine ⟨rfl, ?_, ?_, rfl, rfl, rfl, rfl⟩
  · simp [eth_manager_get_eth_state, get_eth_state, eth_connected, gsodc_ok]
  · simp [eth_manager_get_eth_state, get_eth_state, eth_connected]

/-- Claim C9: the event callback sets the Started bit on a Started event,
clears it on Stopped, sets the Connected bit on LinkUp, clears it on
LinkDown, and leaves both bits unchanged for every other event identifier
and for every non-ETH_EVENT base; a get_state issued after a LinkUp updated
the bits reports is_connected = true, and after a following LinkDown reports
is_connected = false. -/
theorem event_handler_bits_spec :
    ∀ (b : Bits) (i : Int) (ev : EthEvent) (n e : Bool) (ne : NetifEnv)
      (rf : ReadFaults) (s : NvsStore),
      eth_event_handler .ethEvent .start b = { b with started := true }
      ∧ eth_event_handler .ethEvent .stop b = { b with started := false }
      ∧ eth_event_handler .ethEvent .connected b = { b with connected := true }
      ∧ eth_event_handler .ethEvent .disconnected b = { b with connected := false }
      ∧ eth_event_handler .ethEvent (.other i) b = b
      ∧ eth_event_handler .otherBase ev b = b
      ∧ (get_eth_state ne rf s
          (some ⟨n, e, some (eth_event_handler .ethEvent .connected b)⟩)).2.is_connected
          = true
      ∧ (get_eth_state ne rf s
          (some ⟨n, e, some (eth_event_handler .ethEvent .disconnected b)⟩)).2.is_connected
          = false := by
  intro b i ev n e ne rf s
  refine ⟨rfl, rfl, rfl, rfl, rfl, rfl, ?_, ?_⟩
  · simp only [get_eth_state, eth_connected, eth_event_handler]
    split_ifs <;> simp_all
  · simp only [get_eth_state, eth_connected, eth_event_handler]
    split_ifs <;> simp_all

/-- Claim C7: for every configuration with is_disabled = true, apply is
exactly the interface-stop call: outcome and trace are those of stop_eth,
and the trace contains at most the single ethStop operation — no IP-setting,
DNS-setting, DHCP-client or interface-start operation is issued, whatever
the values of is_static, ip_info and dns_info. -/
theorem apply_disabled_stops_only :
    ∀ (ne : NetifEnv) (h : Option HandleS) (cfg : EthCfg),
      cfg.is_disabled = true →
      set_eth_cfg ne h cfg = stop_eth ne h
      ∧ ((set_eth_cfg ne h cfg).2 = [] ∨ (set_eth_cfg ne h cfg).2 = [NetOp.ethStop]) := by
  intro ne h cfg hdis
  have he : set_eth_cfg ne h cfg = stop_eth ne h := by
    simp [set_eth_cfg, hdis]
  refine ⟨he, ?_⟩
  rw [he]
  cases h with
  | none => simp [stop_eth]
  | some h0 =>
    cases hev : h0.eth_events with
    | none => simp [stop_eth, hev]
    | some b =>
      by_cases hb : b.started <;> by_cases hh : h0.eth_handle <;>
        simp [stop_eth, hev, hb, hh]

/-- Witness for apply_disabled_stops_only at a disabled static configuration
and a started manager. -/
theorem apply_disabled_stops_only_witness :
    ({ cfgOld with is_disabled := true } : EthCfg).is_disabled = true
    ∧ set_eth_cfg neOk (some hStarted) { cfgOld with is_disabled := true } =
        stop_eth neOk (some hStarted) :=
  ⟨rfl, (apply_disabled_stops_only neOk (some hStarted)
    { cfgOld with is_disabled := true } rfl).1⟩

/-- Claim C8: applying a non-static, non-disabled configuration twice in
succession succeeds both times.  The first call runs against a freshly
initialized manager (Started bit clear) whose DHCP-client start and driver
start succeed; the second call runs after the stack has started: the
DHCP-client start now reports "already started", which set_eth_cfg maps to
success, and the Started bit short-circuits start_eth to success without
touching the driver. -/
theorem apply_dhcp_idempotent :
    ∀ (ne1 ne2 : NetifEnv) (h1 h2 : HandleS) (b2 : Bits) (cfg : EthCfg),
      cfg.is_disabled = false → cfg.is_static = false →
      h1.eth_handle = true → h1.eth_events = some ⟨false, false⟩ →
      ne1.dhcpcStartRes = .ok → ne1.ethStartRes = .ok →
      h2.eth_handle = true → h2.eth_events = some b2 → b2.started = true →
      ne2.dhcpcStartRes = .dhcpAlreadyStarted →
      (set_eth_cfg ne1 (some h1) cfg).1 = .ok
      ∧ (set_eth_cfg ne2 (some h2) cfg).1 = .ok := by
  intro ne1 ne2 h1 h2 b2 cfg hdis hst hh1 he1 hd1 hs1 hh2 he2 hb2 hd2
  constructor
  · simp [set_eth_cfg, start_eth, hdis, hst, hh1, he1, hs1]
  · simp [set_eth_cfg, start_eth, hdis, hst, hh2, he2, hb2]

/-- Witness for apply_dhcp_idempotent: a concrete DHCP configuration applied
to a fresh manager, then re-applied once the stack reports started. -/
theorem apply_dhcp_idempotent_witness :
    (set_eth_cfg neOk (some hFresh) eth_cfg_init).1 = .ok
    ∧ (set_eth_cfg { neOk with dhcpcStartRes := .dhcpAlreadyStarted }
        (some hConn) eth_cfg_init).1 = .ok :=
  apply_dhcp_idempotent neOk { neOk with dhcpcStartRes := .dhcpAlreadyStarted }
    hFresh hConn ⟨true, true⟩ eth_cfg_init rfl rfl rfl rfl rfl rfl rfl rfl rfl rfl

/-- Claim C5: when the Connected bit is clear, get_state returns the
saved-or-default configuration with is_connected = false and result ESP_OK;
when the Connected bit is set it returns a snapshot with is_connected = true
in which a stopped DHCP status (successfully queried) forces
is_static = true, and on overall success the snapshot carries the live
ip_info and dns_info queried from the interface with is_valid = true. -/
theorem get_state_spec :
    ∀ (ne : NetifEnv) (rf : ReadFaults) (s : NvsStore) (h : Option HandleS),
      (eth_connected h = false →
        eth_manager_get_eth_state ne rf s h =
          (.ok, { (get_saved_or_default_config rf s).2 with is_connected := false }))
      ∧ (eth_connected h = true →
          (eth_manager_get_eth_state ne rf s h).2.is_connected = true
          ∧ (ne.dhcpStatusRes = .ok → ne.dhcpStatus = .stopped →
              (eth_manager_get_eth_state ne rf s h).2.is_static = true)
          ∧ ((eth_manager_get_eth_state ne rf s h).1 = .ok →
              (eth_manager_get_eth_state ne rf s h).2.ip_info = ne.liveIp
              ∧ (eth_manager_get_eth_state ne rf s h).2.dns_info = ne.liveDns
              ∧ (eth_manager_get_eth_state ne rf s h).2.is_valid = true)) := by
  intro ne rf s h
  constructor
  · intro hc
    have h1 := gsodc_ok rf s
    simp only [eth_manager_get_eth_state, get_eth_state, hc]
    simp [Prod.ext_iff, h1]
  · intro hc
    simp only [eth_manager_get_eth_state, get_eth_state, hc]
    refine ⟨?_, ?_, ?_⟩
    · split_ifs <;> simp_all
    · intro hq hst
      split_ifs <;> simp_all
    · intro hok
      split_ifs at hok ⊢ <;> simp_all

/-- Witness for get_state_spec at a connected manager with a benign
environment: the snapshot is connected, static, live-addressed and valid. -/
theorem get_state_spec_witness :
    eth_connected (some hConn) = true
    ∧ (eth_manager_get_eth_state neOk rfOk emptyStore (some hConn)).2.is_connected = true
    ∧ (eth_manager_get_eth_state neOk rfOk emptyStore (some hConn)).2.is_static = true
    ∧ (eth_manager_get_eth_state neOk rfOk emptyStore (some hConn)).2.ip_info = neOk.liveIp := by
  have h := (get_state_spec neOk rfOk emptyStore (some hConn)).2 rfl
  exact ⟨rfl, h.1, h.2.1 rfl rfl, (h.2.2 (by decide)).1⟩

/-- Claim C3: the current resolver get_saved_or_default_config always
returns ESP_OK with is_valid forced true, substituting the compiled-in
defaults (is_default = true, is_static = false, is_disabled = false) exactly
when the load fails, and get_config forwards to it unchanged — but the
older-revision resolver get_effective_config, called on an empty store,
surfaces the NotFound load error and leaves its output buffer untouched,
contradicting the claim for that function. -/
theorem config_resolution_absorbs_errors :
    (∀ (rf : ReadFaults) (s : NvsStore),
      (get_saved_or_default_config rf s).1 = .ok
      ∧ ((get_saved_or_default_config rf s).2).is_valid = true
      ∧ (get_saved_or_default_config rf s).2 =
          (if (get_saved_config rf s).1 = .ok
           then { (get_saved_config rf s).2 with is_valid := true }
           else { set_defaults with is_valid := true })
      ∧ eth_manager_get_eth_cfg rf s = get_saved_or_default_config rf s)
    ∧ set_defaults.is_default = true ∧ set_defaults.is_static = false
    ∧ set_defaults.is_disabled = false
    ∧ get_effective_config rfOk emptyStore eth_cfg_init =
        (.errNotFound, eth_cfg_init) := by
  refine ⟨?_, rfl, rfl, rfl, by decide⟩
  intro rf s
  refine ⟨gsodc_ok rf s, ?_, ?_, rfl⟩
  · unfold get_saved_or_default_config
    by_cases hr : (get_saved_config rf s).1 = .ok <;> simp [hr]
  · unfold get_saved_or_default_config
    by_cases hr : (get_saved_config rf s).1 = .ok <;> simp [hr]

/-- Init-step faults: esp_netif_new returns NULL, everything else succeeds. -/
def envNetifFail : InitEnv := ⟨true, true, false, .ok, .ok⟩

/-- Init-step faults: the handle allocation fails. -/
def envAllocFail : InitEnv := ⟨false, true, true, .ok, .ok⟩

/-- Init-step faults: the event-group creation fails. -/
def envEvtFail : InitEnv := ⟨true, false, true, .ok, .ok⟩

/-- Init-step faults: esp_netif_attach fails with code 20. -/
def envAttachFail : InitEnv := ⟨true, true, true, .errCode 20, .ok⟩

/-- Init-step faults: event-handler registration fails with code 21. -/
def envRegFail : InitEnv := ⟨true, true, true, .ok, .errCode 21⟩

/-- Init-step faults: all wiring steps succeed. -/
def envWiredOk : InitEnv := ⟨true, true, true, .ok, .ok⟩

/-- Interface environment in which starting the driver fails with code 22,
making the apply step of init fail. -/
def neStartFail : NetifEnv := { neOk with ethStartRes := .errCode 22 }

/-- Claim C1 (bug evaluation): when esp_netif_new fails and every other step
succeeds, eth_manager_init returns ESP_OK while leaving the singleton handle
allocated with a NULL interface reference and a live event group — the
rollback path is skipped because the failing branch never sets the error
code.  Every other failing step does roll back to the uninitialized state:
allocation and event-group failures return ErrNoMem with a NULL handle,
attach, registration and apply failures return their error with a NULL
handle. -/
theorem init_netif_null_returns_ok_bug :
    eth_manager_init envNetifFail neOk rfOk emptyStore true none =
      (.ok, some { eth_netif := false, eth_handle := true, eth_events := some ⟨false, false⟩ })
    ∧ eth_manager_init envAllocFail neOk rfOk emptyStore true none = (.errNoMem, none)
    ∧ eth_manager_init envEvtFail neOk rfOk emptyStore true none = (.errNoMem, none)
    ∧ eth_manager_init envAttachFail neOk rfOk emptyStore true none = (.errCode 20, none)
    ∧ eth_manager_init envRegFail neOk rfOk emptyStore true none = (.errCode 21, none)
    ∧ eth_manager_init envWiredOk neStartFail rfOk emptyStore true none = (.errCode 22, none)
    ∧ eth_manager_init envWiredOk neOk rfOk emptyStore true (some hStarted) =
        (.errInvalidState, some hStarted) := by
  decide

/-- Claim C2 counterexample: when the initial nvs_open of save_config fails,
the old record survives untouched.  Saving the factory default over the
previously stored configuration cfgOld then leaves the store neither fully
absent (contradicting the claim's clause that the final state is fully
absent whenever c.is_default) nor fully consistent with the saved
configuration. -/
theorem save_config_two_state_cex :
    (save_config fOpenFail set_defaults (fullStoreOf cfgOld)).2 ≠ emptyStore
    ∧ (save_config fOpenFail set_defaults (fullStoreOf cfgOld)).2 ≠
        fullStoreOf set_defaults
    ∧ set_defaults.is_default = true := by
  decide

/-- Claim C2 as amended: save_config never mixes old and new values — the
final store is either exactly the prior contents (portions of the open /
erase machinery failed before anything was erased) or holds only fields
with save target values (possibly a strict, even empty, prefix when a
recovery erase also failed).  On an ESP_OK return the store is exactly empty
for a default configuration and exactly the fully written record otherwise;
and when the open and erase primitives succeed the original two-state
guarantee holds: the store ends fully absent (always so for a default
configuration or when any write step fails) or fully consistent with the
saved configuration. -/
theorem save_config_no_mix :
    ∀ (f : NvsFaults) (cfg : EthCfg) (s : NvsStore),
      ((save_config f cfg s).2 = s ∨ subStoreOf (save_config f cfg s).2 (fullStoreOf cfg))
      ∧ ((save_config f cfg s).1 = .ok →
          (save_config f cfg s).2 =
            (if cfg.is_default then emptyStore else fullStoreOf cfg))
      ∧ (f.openRW = true → f.openClear = true → f.eraseClear = true →
          f.commitClear = true → f.eraseRecover = true →
          ((save_config f cfg s).2 = emptyStore ∨
            ((save_config f cfg s).1 = .ok
              ∧ (save_config f cfg s).2 = fullStoreOf cfg))
          ∧ (cfg.is_default = true → (save_config f cfg s).2 = emptyStore)
          ∧ ((save_config f cfg s).1 ≠ .ok → (save_config f cfg s).2 = emptyStore)) := by
  intro f cfg s
  by_cases ho : f.openRW
  case neg =>
    simp [save_config, ho]
  case pos =>
    by_cases hoc : f.openClear
    case neg =>
      by_cases her : f.eraseRecover <;>
        simp [save_config, clear_config, ho, hoc, her, emptyStore_sub]
    case pos =>
      by_cases hec : f.eraseClear
      case neg =>
        by_cases her : f.eraseRecover <;>
          simp [save_config, clear_config, ho, hoc, hec, her, emptyStore_sub]
      case pos =>
        by_cases hcc : f.commitClear
        case neg =>
          by_cases her : f.eraseRecover <;>
            simp [save_config, clear_config, ho, hoc, hec, hcc, her, emptyStore_sub]
        case pos =>
          by_cases hd : cfg.is_default
          case pos =>
            simp [save_config, clear_config, ho, hoc, hec, hcc, hd, emptyStore_sub]
          case neg =>
            by_cases hw : (saveWrites f cfg).1 = .ok
            case pos =>
              have h2 := saveWrites_ok f cfg hw
              simp [save_config, clear_config, ho, hoc, hec, hcc, hd, hw, h2,
                subStoreOf, fieldSub, fullStoreOf]
            case neg =>
              by_cases her : f.eraseRecover <;>
                simp [save_config, clear_config, ho, hoc, hec, hcc, hd, hw, her,
                  emptyStore_sub, saveWrites_sub]

/-- Witness for save_config_no_mix: with no faults, saving cfgOld over a
previously stored default-free record ends with the store fully consistent
with cfgOld. -/
theorem save_config_no_mix_witness :
    (save_config fAllOk cfgOld (fullStoreOf set_defaults)).2 = emptyStore ∨
      ((save_config fAllOk cfgOld (fullStoreOf set_defaults)).1 = .ok
        ∧ (save_config fAllOk cfgOld (fullStoreOf set_defaults)).2 = fullStoreOf cfgOld) :=
  ((save_config_no_mix fAllOk cfgOld (fullStoreOf set_defaults)).2.2
    rfl rfl rfl rfl rfl).1

end EthMgr
